import Mathlib

/-!
Verification of the AgriRisk scoring pipeline (`ml/train_model.py`,
class `ProductionAgriRiskModel`).

We shallowly embed the arithmetic core of the pipeline: the feature
engineering of `prepare_features` (interaction terms, composite indices,
risk flags, batch statistics and the missing-value handling), the risk
score / category mapping and report assembly of `predict_risk_score`, the
SHAP-bucket breakdown of `_calculate_breakdown`, the top-driver and
protective-factor selection, and the data-dependent control flow of
`train` (stratified splitting, estimator fit, calibration fallback).

Modelling conventions: machine floats are rationals; a missing value
(`NaN` in a pandas column) is `Option.none`; Python's `int()` applied to a
float is truncation toward zero; `np.clip(x, lo, hi)` is `min (max x lo) hi`;
Python's `sorted(..., reverse=True)` is a stable descending sort.
-/

namespace AgriRisk

/-- numpy's clip: clamp `x` into the interval `[lo, hi]`. -/
def npClip (x lo hi : ℚ) : ℚ := min (max x lo) hi

/-- Python's `int()` on a finite float: truncation toward zero. -/
def pyInt (q : ℚ) : ℤ := if 0 ≤ q then ⌊q⌋ else -⌊-q⌋

/-- pandas `.astype(int)` on a boolean: the 0/1 indicator. -/
def b2q (b : Bool) : ℚ := if b then 1 else 0

/-- Line 406: `risk_score = int(np.clip((1 - prob_claim) * 100, 0, 100))`.
The score is the Python-`int` truncation of the clipped value, on the
0-100 scale where higher means safer. -/
def riskScore (prob_claim : ℚ) : ℤ := pyInt (npClip ((1 - prob_claim) * 100) 0 100)

/-- Lines 409-420: the coarse category and the human-readable label derived
from the risk score. -/
def riskCategory (risk_score : ℤ) : String × String :=
  if 75 ≤ risk_score then ("low", "Low Risk (Safe)")
  else if 50 ≤ risk_score then ("medium", "Moderate Risk")
  else if 25 ≤ risk_score then ("high", "High Risk")
  else ("high", "Critical Risk")

/-- The slice of the returned report (lines 450-455) carrying the score,
the coarse category and the fine-grained label; both strings are emitted. -/
structure RiskReportSlice where
  risk_score : ℤ
  risk_category : String
  category_label : String
deriving DecidableEq

/-- Assembly of the report fields `risk_score`, `risk_category` and
`category_label` from the calibrated claim probability (lines 406-420 and
450-455). -/
def buildReport (prob_claim : ℚ) : RiskReportSlice :=
  { risk_score := riskScore prob_claim
    risk_category := (riskCategory (riskScore prob_claim)).1
    category_label := (riskCategory (riskScore prob_claim)).2 }

/-- The four-key integer breakdown returned by `_calculate_breakdown`. -/
structure Breakdown where
  weather_risk : ℤ
  infrastructure : ℤ
  diversification : ℤ
  financial_health : ℤ
deriving DecidableEq

/-- Lines 517-530 of `_calculate_breakdown`: the four bucket SHAP sums are
rescaled by the total absolute contribution, mapped onto the `[0,25]` scale
centred at `12.5` (`25/2`), the weather bucket with inverted sign, then
clipped and truncated by `int(np.clip(..., 0, 25))`; when the total absolute
contribution is zero every bucket is the constant `12`. -/
def calculateBreakdown (weather_shap infra_shap div_shap fin_shap : ℚ) : Breakdown :=
  let total_abs := |weather_shap| + |infra_shap| + |div_shap| + |fin_shap|
  if 0 < total_abs then
    { weather_risk := pyInt (npClip (25/2 - weather_shap / total_abs * (25/2)) 0 25)
      infrastructure := pyInt (npClip (25/2 + infra_shap / total_abs * (25/2)) 0 25)
      diversification := pyInt (npClip (25/2 + div_shap / total_abs * (25/2)) 0 25)
      financial_health := pyInt (npClip (25/2 + fin_shap / total_abs * (25/2)) 0 25) }
  else ⟨12, 12, 12, 12⟩

/-- The error taxonomy at the scoring entry point: the not-ready error
raised at lines 393-394 (`ValueError("Model not trained. Call train() first.")`)
versus the input-validation errors raised at the serving boundary
(`api_server.py`, pydantic schema validation).  The two kinds are distinct
constructors, as the two are distinct exception types in the source. -/
inductive ScoreError where
  | notReady (msg : String)
  | invalidInput (msg : String)
deriving DecidableEq

/-- The fitted scorer held in `self.calibrated_model`, abstracted by the
calibrated probability it assigns to a farm record. -/
structure TrainedScorer where
  prob_of : String → ℚ

/-- Lines 389-420 of `predict_risk_score`, gated on a fitted model: when
`self.calibrated_model is None` the not-ready `ValueError` is raised before
anything is computed; otherwise the report is assembled from the calibrated
probability.  The farm record is abstracted by its identifier. -/
def predictRiskScore (calibrated_model : Option TrainedScorer) (farm_id : String) :
    Except ScoreError RiskReportSlice :=
  match calibrated_model with
  | none => .error (.notReady "Model not trained. Call train() first.")
  | some s => .ok (buildReport (s.prob_of farm_id))

/-- The scorer stored in `self.calibrated_model` after training: either the
fitted calibrator wrapping the raw estimator (`CalibratedClassifierCV`), or,
after the calibration-fallback at line 286, the raw estimator itself. -/
inductive Scorer (M : Type) (C : Type) where
  | calibrated (c : C) (m : M)
  | raw (m : M)

/-- Lines 276-286 of `train`: `CalibratedClassifierCV(...).fit` is attempted
inside a `try`; a successful fit (`some c`) installs the calibrator, any
failure (`none`) is caught and the raw model installed instead
(`self.calibrated_model = self.model`). -/
def fitCalibratedModel {M C : Type} (m : M) (fitResult : Option C) : Scorer M C :=
  match fitResult with
  | some c => .calibrated c m
  | none => .raw m

/-- Whether the persisted state records the calibration fallback: the
fallback arm is the one where `calibrated_model` is the raw estimator itself
rather than a calibrator wrapper, a distinction preserved by `save`/`load`
since the whole object is serialised. -/
def usedFallback {M C : Type} : Scorer M C → Bool
  | .calibrated _ _ => false
  | .raw _ => true

/-- `predict_proba` of the stored scorer: through the calibrator the raw
estimator probability is remapped by the fitted calibration map; through the
fallback arm the raw estimator probability passes unchanged. -/
def predictProba {M C α : Type} (rawProba : M → α → ℚ) (applyCal : C → ℚ → ℚ) :
    Scorer M C → α → ℚ
  | .calibrated c m, x => applyCal c (rawProba m x)
  | .raw m, x => rawProba m x

/-- Number of test samples sklearn's `train_test_split` draws for a
fractional `test_size = num/den` on `n` samples: `ceil(n * num / den)`. -/
def nTestOf (n num den : ℕ) : ℕ := (n * num + den - 1) / den

/-- Preconditions of sklearn's `StratifiedShuffleSplit` over two label
classes with `p` positives and `n` negatives: every class that is present
must have at least 2 members, and each side of the split must have room for
every present class; otherwise `train_test_split(..., stratify=y)` raises. -/
def stratOk (p n nTrain nTest : ℕ) : Bool :=
  let nClasses := (if 0 < p then 1 else 0) + (if 0 < n then 1 else 0)
  (decide (p = 0) || decide (2 ≤ p)) && (decide (n = 0) || decide (2 ≤ n))
    && decide (nClasses ≤ nTrain) && decide (nClasses ≤ nTest)

/-- sklearn's `_approximate_mode` for two classes: floor-proportional
apportionment of `d` draws over class counts `(c1, c2)`, the leftover draw
going to the class with the larger remainder.  The source breaks exact
remainder ties with the seeded rng; the theorems below evaluate this only at
remainder-free inputs, where no tie arises. -/
def approxMode2 (c1 c2 d : ℕ) : ℕ × ℕ :=
  let s := c1 + c2
  let f1 := c1 * d / s
  let f2 := c2 * d / s
  let left := d - f1 - f2
  if left = 0 then (f1, f2)
  else if c1 * d % s < c2 * d % s then (f1, f2 + left) else (f1 + left, f2)

/-- The two ways `train` can raise before producing a model: a stratified
split that sklearn rejects, or a CatBoost `fit` on single-class labels
(`Logloss` requires both classes). -/
inductive TrainError where
  | stratSplit
  | estimatorFit
deriving DecidableEq

/-- The slice of the trained object relevant to the gating claims: whether
the calibration fallback was taken, and the keys of the stored metrics
dictionary. -/
structure BundleSlice where
  usedFallbackFlag : Bool
  metricKeys : List String
deriving DecidableEq

/-- The metric keys stored by `train` (lines 307-314).  No key flags
calibration fallback or data insufficiency. -/
def storedMetricKeys : List String :=
  ["auc", "brier_score", "precision", "recall", "f1_score", "accuracy"]

/-- Control flow of `ProductionAgriRiskModel.train` over the label counts
(`p` positives, `n` negatives): the two stratified splits of lines 228-235
(70/30, then 50/50 of the remainder), the estimator fit that fails when the
training labels are single-class, and the calibration step whose failure
for any reason (abstracted by `calibFitFails`, since the source catches all
exceptions) is turned into the raw-model fallback at line 286 instead of a
training failure.  No check of the total sample count appears anywhere in
the source. -/
def train (p n : ℕ) (calibFitFails : Bool) : Except TrainError BundleSlice :=
  let total := p + n
  let t1 := nTestOf total 3 10
  let tr1 := total - t1
  if !stratOk p n tr1 t1 then .error .stratSplit
  else
    let trainSplit := approxMode2 p n tr1
    let tempP := p - trainSplit.1
    let tempN := n - trainSplit.2
    let total2 := tempP + tempN
    let t2 := nTestOf total2 1 2
    let tr2 := total2 - t2
    if !stratOk tempP tempN tr2 t2 then .error .stratSplit
    else if trainSplit.1 = 0 ∨ trainSplit.2 = 0 then .error .estimatorFit
    else .ok ⟨calibFitFails, storedMetricKeys⟩

/-- Stable descending insertion by key: an element is inserted before the
first element whose key is not larger, so among equal keys the earlier input
stays first. -/
def insertDesc {α : Type} (key : α → ℚ) (x : α) : List α → List α
  | [] => [x]
  | y :: ys => if key x < key y then y :: insertDesc key x ys else x :: y :: ys

/-- Stable descending sort by key: the semantics of Python's stable
`sorted(..., key=..., reverse=True)`. -/
def sortDesc {α : Type} (key : α → ℚ) : List α → List α
  | [] => []
  | x :: xs => insertDesc key x (sortDesc key xs)

/-- pandas `Series.median()` with NaN skipped: the middle order statistic,
or the mean of the two middle ones for an even count; `none` for an
all-missing series. -/
def median (xs : List ℚ) : Option ℚ :=
  let s := sortDesc (fun a => -a) xs
  let k := s.length
  if k = 0 then none
  else if k % 2 = 1 then s[k / 2]?
  else (s[k / 2 - 1]?.bind fun a => s[k / 2]?.map fun b => (a + b) / 2)

/-- One raw farm record, restricted to the fields `prepare_features`
consumes.  The two satellite fields can be missing (cloud cover, lines
192-197); the remaining fields are taken as present, which is the serving
schema of `api_server.py`. -/
structure FarmRecord where
  state : String
  crop_type : String
  irrigation_type : String
  season : String
  year : ℤ
  land_acres : ℚ
  actual_rainfall_mm : ℚ
  rainfall_deficit_pct : ℚ
  heatwave_days : ℚ
  monsoon_reliability : ℚ
  ndvi_score : Option ℚ
  soil_moisture_percent : Option ℚ
  soil_fertility_index : ℚ
  water_source_count : ℚ
  borewell_count : ℚ
  borewell_depth_ft : ℚ
  crop_count : ℚ
  livestock_count : ℚ
  kcc_score : ℚ
  kcc_repayment_rate : ℚ
  outstanding_debt_ratio : ℚ
  owns_tractor : Bool
  has_storage : Bool
  has_livestock : Bool
  has_canal_access : Bool
  has_insurance_history : Bool
deriving DecidableEq

/-- The engineered row produced by `prepare_features` for one record
(lines 38-207).  Fields that can still be NaN after the imputation pass are
`Option`s. -/
structure FeatureRow where
  land_acres : ℚ
  actual_rainfall_mm : ℚ
  rainfall_deficit_pct : ℚ
  heatwave_days : ℚ
  monsoon_reliability : ℚ
  ndvi_score : Option ℚ
  soil_moisture_percent : Option ℚ
  soil_fertility_index : ℚ
  vegetation_health_score : Option ℚ
  soil_quality_score : Option ℚ
  water_source_count : ℚ
  borewell_count : ℚ
  borewell_depth_ft : ℚ
  crop_count : ℚ
  livestock_count : ℚ
  kcc_score : ℚ
  kcc_repayment_rate : ℚ
  outstanding_debt_ratio : ℚ
  water_security_index : ℚ
  financial_health_index : ℚ
  diversification_index : ℚ
  weather_stress_index : ℚ
  irrigation_score : ℚ
  irrigation_x_drought : ℚ
  tractor_x_land : ℚ
  debt_x_drought : ℚ
  diversification_x_weather : ℚ
  rainfall_deviation_from_state : ℚ
  year_ordinal : ℤ
  is_rainfed : ℚ
  is_high_risk_crop : ℚ
  is_marginal_farmer : ℚ
  is_single_crop : ℚ
  has_deep_borewell : ℚ
  is_drought_year : ℚ
  is_flood_year : ℚ
  has_financial_stress : ℚ
  is_kharif_season : ℚ
  owns_tractor : ℚ
  has_storage : ℚ
  has_livestock : ℚ
  has_canal_access : ℚ
  has_insurance_history : ℚ
  state : String
  crop_type : String
  irrigation_type : String
  season : String
deriving DecidableEq

/-- The irrigation-type score dictionary of lines 64-68 followed by
`fillna(0)`: rainfed and none map to 0 and so does any unknown type. -/
def irrigationScores (t : String) : ℚ :=
  if t == "drip" then 19/20
  else if t == "sprinkler" then 17/20
  else if t == "canal" then 7/10
  else if t == "borewell" then 3/5
  else if t == "flood" then 1/2
  else 0

/-- The rows of the batch lying in the given state. -/
def stateGroup (batch : List FarmRecord) (st : String) : List FarmRecord :=
  batch.filter (fun r => r.state == st)

/-- Line 131: the state-level mean of actual rainfall, computed over the
batch being transformed. -/
def stateRainfallMean (batch : List FarmRecord) (st : String) : ℚ :=
  let xs := (stateGroup batch st).map (fun r => r.actual_rainfall_mm)
  xs.sum / (xs.length : ℚ)

/-- Lines 192-197: for a satellite column, the per-state-group median of
the observed values of the batch being transformed; `none` when the group
holds no observed value, in which case `x.fillna(x.median())` leaves NaN. -/
def stateGroupMedian (value : FarmRecord → Option ℚ) (batch : List FarmRecord)
    (st : String) : Option ℚ :=
  median ((stateGroup batch st).filterMap value)

/-- pandas `fillna`: a present value is kept, a missing one replaced by the
fill value (itself possibly missing, in which case NaN survives). -/
def fillna (v fill : Option ℚ) : Option ℚ :=
  match v with
  | some q => some q
  | none => fill

/-- Line 98, before the imputation pass: vegetation health is `ndvi * 100`,
NaN exactly when ndvi is missing. -/
def vegetationRaw (r : FarmRecord) : Option ℚ := r.ndvi_score.map (fun v => v * 100)

/-- Lines 101-104, before the imputation pass: the soil quality composite,
NaN exactly when soil moisture is missing. -/
def soilQualityRaw (r : FarmRecord) : Option ℚ :=
  r.soil_moisture_percent.map
    (fun m => (r.soil_fertility_index * (3/5) + m / 100 * (2/5)) * 100)

/-- The minimum of the `year` column over the batch (line 123). -/
def minYear : List FarmRecord → ℤ
  | [] => 0
  | r :: rs => rs.foldl (fun acc q => min acc q.year) r.year

/-- The engineered row `prepare_features` produces for record `r` of the
batch `batch` (lines 38-207), in source order: interaction features,
composite indices, risk flags, temporal features, the batch-level state
aggregations, and finally the missing-value pass.  The composite indices
and flags read the raw borewell fields, because the rainfed zero-override
of lines 183-190 runs after them; the two satellite columns are imputed
with the state-group median of the same batch; the vegetation and soil
quality columns, already NaN when their satellite input was, are then
filled with the batch-global median of their observed values (line 201).
`log1p` abstracts `np.log1p`, fixed and deterministic in the source. -/
def prepareRow (log1p : ℚ → ℚ) (batch : List FarmRecord) (r : FarmRecord) : FeatureRow :=
  let isRainfedType := r.irrigation_type == "rainfed" || r.irrigation_type == "none"
  let irrigation_score := irrigationScores r.irrigation_type
  { land_acres := r.land_acres
    actual_rainfall_mm := r.actual_rainfall_mm
    rainfall_deficit_pct := r.rainfall_deficit_pct
    heatwave_days := r.heatwave_days
    monsoon_reliability := r.monsoon_reliability
    ndvi_score := fillna r.ndvi_score (stateGroupMedian (fun b => b.ndvi_score) batch r.state)
    soil_moisture_percent :=
      fillna r.soil_moisture_percent
        (stateGroupMedian (fun b => b.soil_moisture_percent) batch r.state)
    soil_fertility_index := r.soil_fertility_index
    vegetation_health_score := fillna (vegetationRaw r) (median (batch.filterMap vegetationRaw))
    soil_quality_score := fillna (soilQualityRaw r) (median (batch.filterMap soilQualityRaw))
    water_source_count := r.water_source_count
    borewell_count := if isRainfedType then 0 else r.borewell_count
    borewell_depth_ft := if isRainfedType then 0 else r.borewell_depth_ft
    crop_count := r.crop_count
    livestock_count := r.livestock_count
    kcc_score := r.kcc_score
    kcc_repayment_rate := r.kcc_repayment_rate
    outstanding_debt_ratio := r.outstanding_debt_ratio
    water_security_index :=
      irrigation_score * (1/2) + npClip (r.water_source_count / 4) 0 1 * (3/10) +
        npClip (r.borewell_depth_ft / 200) 0 1 * (1/5)
    financial_health_index :=
      npClip ((r.kcc_repayment_rate / 100) * (3/5) +
        (1 - npClip r.outstanding_debt_ratio 0 (3/2) / (3/2)) * (2/5)) 0 1
    diversification_index :=
      npClip (npClip (r.crop_count / 3) 0 1 * (3/5) + b2q r.has_livestock * (2/5)) 0 1
    weather_stress_index :=
      npClip (|r.rainfall_deficit_pct| * (3/5) + npClip (r.heatwave_days / 20) 0 1 * (2/5)) 0 1
    irrigation_score := irrigation_score
    irrigation_x_drought :=
      b2q (r.irrigation_type == "drip" || r.irrigation_type == "sprinkler") *
        npClip r.rainfall_deficit_pct 0 1
    tractor_x_land := b2q r.owns_tractor * log1p r.land_acres
    debt_x_drought := r.outstanding_debt_ratio * npClip r.rainfall_deficit_pct 0 1
    diversification_x_weather :=
      npClip r.crop_count 1 3 * (1 - npClip |r.rainfall_deficit_pct| 0 1)
    rainfall_deviation_from_state :=
      (r.actual_rainfall_mm - stateRainfallMean batch r.state) / stateRainfallMean batch r.state
    year_ordinal := r.year - minYear batch
    is_rainfed := b2q isRainfedType
    is_high_risk_crop :=
      b2q (r.crop_type == "cotton" || r.crop_type == "rice" || r.crop_type == "soybean")
    is_marginal_farmer := b2q (decide (r.land_acres < 5/2))
    is_single_crop := b2q (decide (r.crop_count = 1))
    has_deep_borewell := b2q (decide (150 < r.borewell_depth_ft))
    is_drought_year := b2q (decide (3/10 < r.rainfall_deficit_pct))
    is_flood_year := b2q (decide (r.rainfall_deficit_pct < -(3/10)))
    has_financial_stress :=
      b2q (decide (r.kcc_repayment_rate < 60) || decide (1 < r.outstanding_debt_ratio))
    is_kharif_season := b2q (r.season == "kharif")
    owns_tractor := b2q r.owns_tractor
    has_storage := b2q r.has_storage
    has_livestock := b2q r.has_livestock
    has_canal_access := b2q r.has_canal_access
    has_insurance_history := b2q r.has_insurance_history
    state := r.state
    crop_type := r.crop_type
    irrigation_type := r.irrigation_type
    season := r.season }

/-- `prepare_features` on a batch: every row is transformed with the batch
itself as the context for the group statistics (state rainfall mean, state
group medians, global medians, minimum year).  A single-record scoring call
(line 397, `pd.DataFrame([farm_data])`) is the one-row batch `[r]`. -/
def prepareFeatures (log1p : ℚ → ℚ) (batch : List FarmRecord) : List FeatureRow :=
  batch.map (prepareRow log1p batch)

/-- Lines 437-442: the top risk drivers: among the per-feature SHAP
contributions, those strictly positive, stably sorted descending by the
contribution, first three, reported with the signed contribution. -/
def riskDrivers (impacts : List (String × ℚ)) : List (String × ℚ) :=
  (sortDesc (fun fc => fc.2) (impacts.filter (fun fc => decide (0 < fc.2)))).take 3

/-- Lines 444-448: the top protective factors: the strictly negative
contributions mapped to `(name, |c|)`, stably sorted descending by that
absolute value, first three. -/
def protectiveFactors (impacts : List (String × ℚ)) : List (String × ℚ) :=
  (sortDesc (fun fc => fc.2)
    ((impacts.filter (fun fc => decide (fc.2 < 0))).map (fun fc => (fc.1, |fc.2|)))).take 3

theorem insertDesc_perm {α : Type} (key : α → ℚ) (x : α) (l : List α) :
    (insertDesc key x l).Perm (x :: l) := by
  induction l with
  | nil => exact List.Perm.refl _
  | cons y ys ih =>
    by_cases h : key x < key y
    · simp only [insertDesc, if_pos h]
      exact (ih.cons y).trans (List.Perm.swap x y ys)
    · simp only [insertDesc, if_neg h]
      exact List.Perm.refl _

theorem sortDesc_perm {α : Type} (key : α → ℚ) (l : List α) : (sortDesc key l).Perm l := by
  induction l with
  | nil => exact List.Perm.refl _
  | cons x xs ih => exact (insertDesc_perm key x _).trans (ih.cons x)

theorem insertDesc_sorted {α : Type} (key : α → ℚ) (x : α) (l : List α)
    (h : l.Pairwise (fun a b => key b ≤ key a)) :
    (insertDesc key x l).Pairwise (fun a b => key b ≤ key a) := by
  induction l with
  | nil => simp [insertDesc]
  | cons y ys ih =>
    rcases List.pairwise_cons.mp h with ⟨hy, hys⟩
    by_cases hxy : key x < key y
    · simp only [insertDesc, if_pos hxy]
      refine List.pairwise_cons.mpr ⟨?_, ih hys⟩
      intro z hz
      have hz2 : z = x ∨ z ∈ ys := by
        simpa using (insertDesc_perm key x ys).mem_iff.mp hz
      rcases hz2 with rfl | hzys
      · exact le_of_lt hxy
      · exact hy z hzys
    · simp only [insertDesc, if_neg hxy]
      refine List.pairwise_cons.mpr ⟨?_, h⟩
      intro z hz
      rcases List.mem_cons.mp hz with rfl | hzys
      · exact not_lt.mp hxy
      · exact le_trans (hy z hzys) (not_lt.mp hxy)

theorem sortDesc_sorted {α : Type} (key : α → ℚ) (l : List α) :
    (sortDesc key l).Pairwise (fun a b => key b ≤ key a) := by
  induction l with
  | nil => simp [sortDesc]
  | cons x xs ih => exact insertDesc_sorted key x _ ih

theorem insertDesc_filter_key {α : Type} (key : α → ℚ) (c : ℚ) (x : α) (l : List α) :
    (insertDesc key x l).filter (fun a => decide (key a = c)) =
      if key x = c then x :: l.filter (fun a => decide (key a = c))
      else l.filter (fun a => decide (key a = c)) := by
  induction l with
  | nil =>
    by_cases h : key x = c <;> simp [insertDesc, h]
  | cons y ys ih =>
    by_cases hxy : key x < key y
    · simp only [insertDesc, if_pos hxy]
      by_cases hx : key x = c
      · have hyc : ¬ key y = c := by
          intro hc
          rw [hx, hc] at hxy
          exact lt_irrefl c hxy
        simp [List.filter_cons, hyc, ih, hx]
      · simp [List.filter_cons, ih, hx]
    · simp only [insertDesc, if_neg hxy]
      by_cases hx : key x = c <;> simp [List.filter_cons, hx]

theorem sortDesc_filter_key {α : Type} (key : α → ℚ) (c : ℚ) (l : List α) :
    (sortDesc key l).filter (fun a => decide (key a = c)) =
      l.filter (fun a => decide (key a = c)) := by
  induction l with
  | nil => rfl
  | cons x xs ih =>
    simp only [sortDesc, insertDesc_filter_key]
    by_cases h : key x = c <;> simp [List.filter_cons, h, ih]

theorem sortDesc_take_split {α : Type} (key : α → ℚ) (l : List α) (k : ℕ) :
    l.Perm ((sortDesc key l).take k ++ (sortDesc key l).drop k) ∧
      (∀ x ∈ (sortDesc key l).take k, ∀ y ∈ (sortDesc key l).drop k, key y ≤ key x) := by
  constructor
  · rw [List.take_append_drop]
    exact (sortDesc_perm key l).symm
  · have hs := sortDesc_sorted key l
    rw [← List.take_append_drop k (sortDesc key l)] at hs
    intro x hx y hy
    exact (List.pairwise_append.mp hs).2.2 x hx y hy

theorem npClip_nonneg (x hi : ℚ) (h : 0 ≤ hi) : 0 ≤ npClip x 0 hi :=
  le_min (le_max_right x 0) h

theorem pyInt_of_nonneg (q : ℚ) (h : 0 ≤ q) : pyInt q = ⌊q⌋ := by
  unfold pyInt
  exact if_pos h

/-- Claim C2, counterexample: at calibrated claim probability 1/200 the
code's risk score is the truncation 99 of 99.5, while the claimed
round(clip((1-p)*100, 0, 100)) is 100: line 406 truncates with `int()`,
it does not round. -/
theorem riskScore_truncation_cex :
    riskScore (1/200) = 99 ∧ round (npClip ((1 - (1/200 : ℚ)) * 100) 0 100) = 100 := by
  have hval : npClip ((1 - (1/200 : ℚ)) * 100) 0 100 = 199/2 := by
    unfold npClip
    rw [max_eq_left (by norm_num), min_eq_left (by norm_num)]
    norm_num
  constructor
  · unfold riskScore
    rw [hval, pyInt_of_nonneg _ (by norm_num)]
    norm_num
  · rw [hval, round_eq]
    norm_num

/-- Claim C2 (amended): the returned risk score is the floor (Python `int`
truncation) of clip((1 - p) * 100, 0, 100) — truncation, not rounding — an
integer in [0, 100], and antitone in the calibrated probability, so a
higher score means a safer farm. -/
theorem riskScore_floor_clip_bounds (p : ℚ) :
    riskScore p = ⌊npClip ((1 - p) * 100) 0 100⌋ ∧
    0 ≤ riskScore p ∧ riskScore p ≤ 100 ∧
    ∀ q : ℚ, p ≤ q → riskScore q ≤ riskScore p := by
  have hfl : ∀ x : ℚ, riskScore x = ⌊npClip ((1 - x) * 100) 0 100⌋ := by
    intro x
    unfold riskScore
    exact pyInt_of_nonneg _ (npClip_nonneg _ _ (by norm_num))
  refine ⟨hfl p, ?_, ?_, ?_⟩
  · rw [hfl]
    exact Int.floor_nonneg.mpr (npClip_nonneg _ _ (by norm_num))
  · rw [hfl]
    calc ⌊npClip ((1 - p) * 100) 0 100⌋ ≤ ⌊(100 : ℚ)⌋ :=
          Int.floor_le_floor (min_le_right _ _)
    _ = 100 := by norm_num
  · intro q hpq
    rw [hfl, hfl]
    apply Int.floor_le_floor
    unfold npClip
    exact min_le_min (max_le_max (by nlinarith) le_rfl) le_rfl

/-- Claim C4: every breakdown bucket is an integer in [0, 25]; with a
nonzero total absolute contribution each non-weather bucket is the
truncated clip of 12.5 plus its share of the total times 12.5 while the
weather bucket subtracts its share, and when all four bucket contributions
are zero every bucket is the truncated midpoint 12. -/
theorem breakdown_bounds_and_midpoint (w i d f : ℚ) :
    (0 ≤ (calculateBreakdown w i d f).weather_risk ∧
      (calculateBreakdown w i d f).weather_risk ≤ 25) ∧
    (0 ≤ (calculateBreakdown w i d f).infrastructure ∧
      (calculateBreakdown w i d f).infrastructure ≤ 25) ∧
    (0 ≤ (calculateBreakdown w i d f).diversification ∧
      (calculateBreakdown w i d f).diversification ≤ 25) ∧
    (0 ≤ (calculateBreakdown w i d f).financial_health ∧
      (calculateBreakdown w i d f).financial_health ≤ 25) ∧
    (0 < |w| + |i| + |d| + |f| →
      calculateBreakdown w i d f =
        { weather_risk := ⌊npClip (25/2 - w / (|w| + |i| + |d| + |f|) * (25/2)) 0 25⌋
          infrastructure := ⌊npClip (25/2 + i / (|w| + |i| + |d| + |f|) * (25/2)) 0 25⌋
          diversification := ⌊npClip (25/2 + d / (|w| + |i| + |d| + |f|) * (25/2)) 0 25⌋
          financial_health := ⌊npClip (25/2 + f / (|w| + |i| + |d| + |f|) * (25/2)) 0 25⌋ }) ∧
    (w = 0 ∧ i = 0 ∧ d = 0 ∧ f = 0 → calculateBreakdown w i d f = ⟨12, 12, 12, 12⟩) := by
  have hb : ∀ x : ℚ, 0 ≤ pyInt (npClip x 0 25) ∧ pyInt (npClip x 0 25) ≤ 25 := by
    intro x
    rw [pyInt_of_nonneg _ (npClip_nonneg _ _ (by norm_num))]
    constructor
    · exact Int.floor_nonneg.mpr (npClip_nonneg _ _ (by norm_num))
    · calc ⌊npClip x 0 25⌋ ≤ ⌊(25 : ℚ)⌋ := Int.floor_le_floor (min_le_right _ _)
      _ = 25 := by norm_num
  by_cases hT : 0 < |w| + |i| + |d| + |f|
  · have hform : calculateBreakdown w i d f =
        { weather_risk := pyInt (npClip (25/2 - w / (|w| + |i| + |d| + |f|) * (25/2)) 0 25)
          infrastructure := pyInt (npClip (25/2 + i / (|w| + |i| + |d| + |f|) * (25/2)) 0 25)
          diversification := pyInt (npClip (25/2 + d / (|w| + |i| + |d| + |f|) * (25/2)) 0 25)
          financial_health := pyInt (npClip (25/2 + f / (|w| + |i| + |d| + |f|) * (25/2)) 0 25) } := by
      unfold calculateBreakdown
      rw [if_pos hT]
    refine ⟨?_, ?_, ?_, ?_, ?_, ?_⟩
    · rw [hform]; exact hb _
    · rw [hform]; exact hb _
    · rw [hform]; exact hb _
    · rw [hform]; exact hb _
    · intro _
      rw [hform]
      simp only [Breakdown.mk.injEq]
      refine ⟨?_, ?_, ?_, ?_⟩ <;>
        exact pyInt_of_nonneg _ (npClip_nonneg _ _ (by norm_num))
    · rintro ⟨rfl, rfl, rfl, rfl⟩
      norm_num at hT
  · have hz : calculateBreakdown w i d f = ⟨12, 12, 12, 12⟩ := by
      unfold calculateBreakdown
      rw [if_neg hT]
    refine ⟨?_, ?_, ?_, ?_, ?_, ?_⟩ <;> rw [hz]
    · exact ⟨by norm_num, by norm_num⟩
    · exact ⟨by norm_num, by norm_num⟩
    · exact ⟨by norm_num, by norm_num⟩
    · exact ⟨by norm_num, by norm_num⟩
    · intro h
      exact absurd h hT
    · intro _
      rfl

/-- Claim C5: the report emits both the coarse category and the label, and
the mapping follows the thresholds of lines 409-420: at least 75 is low, 50
to 74 is medium, 25 to 49 is high with label "High Risk", and below 25 is
still high but with the distinct label "Critical Risk". -/
theorem risk_category_thresholds (s : ℤ) (p : ℚ) :
    ((buildReport p).risk_category = (riskCategory (riskScore p)).1 ∧
      (buildReport p).category_label = (riskCategory (riskScore p)).2) ∧
    (75 ≤ s → riskCategory s = ("low", "Low Risk (Safe)")) ∧
    (50 ≤ s ∧ s < 75 → riskCategory s = ("medium", "Moderate Risk")) ∧
    (25 ≤ s ∧ s < 50 → riskCategory s = ("high", "High Risk")) ∧
    (s < 25 → riskCategory s = ("high", "Critical Risk")) := by
  refine ⟨⟨rfl, rfl⟩, ?_, ?_, ?_, ?_⟩
  · intro h
    unfold riskCategory
    rw [if_pos h]
  · rintro ⟨h1, h2⟩
    unfold riskCategory
    rw [if_neg (by omega), if_pos h1]
  · rintro ⟨h1, h2⟩
    unfold riskCategory
    rw [if_neg (by omega), if_neg (by omega), if_pos h1]
  · intro h
    unfold riskCategory
    rw [if_neg (by omega), if_neg (by omega), if_neg (by omega)]

/-- Claim C6: a scoring call on an untrained model is rejected by the first
statement of `predict_risk_score` with the not-ready error; no report value
is produced, and the not-ready kind is distinct from every input-validation
error. -/
theorem score_untrained_not_ready (farm_id : String) :
    predictRiskScore none farm_id =
      .error (.notReady "Model not trained. Call train() first.") ∧
    (∀ r : RiskReportSlice, predictRiskScore none farm_id ≠ .ok r) ∧
    (∀ m1 m2 : String, ScoreError.notReady m1 ≠ ScoreError.invalidInput m2) := by
  refine ⟨rfl, ?_, ?_⟩
  · intro r h
    exact Except.noConfusion h
  · intro m1 m2 h
    exact ScoreError.noConfusion h

/-- Claim C3: a calibration-fit failure (any exception, abstracted) leaves
training successful, the fallback scorer passes the raw estimator
probability through unchanged, and the fallback is observable in the
persisted state: the stored `calibrated_model` is the raw-estimator arm,
distinguishable from the calibrator arm, and the trained bundle records it. -/
theorem calibration_fallback_observable {M C : Type}
    (rawProba : M → String → ℚ) (applyCal : C → ℚ → ℚ) (m : M) (x : String) :
    predictProba rawProba applyCal (fitCalibratedModel m (none : Option C)) x = rawProba m x ∧
    usedFallback (fitCalibratedModel m (none : Option C)) = true ∧
    (∀ c : C, usedFallback (fitCalibratedModel m (some c)) = false) ∧
    (∀ p n : ℕ, (train p n true).isOk = (train p n false).isOk) ∧
    (∀ (p n : ℕ) (b : Bool) (bnd : BundleSlice),
      train p n b = .ok bnd → bnd.usedFallbackFlag = b) := by
  refine ⟨rfl, rfl, fun c => rfl, ?_, ?_⟩
  · intro p n
    simp only [train]
    split
    · rfl
    · split
      · rfl
      · split
        · rfl
        · rfl
  · intro p n b bnd h
    simp only [train] at h
    split at h
    · exact absurd h (by simp)
    · split at h
      · exact absurd h (by simp)
      · split at h
        · exact absurd h (by simp)
        · cases h
          rfl

/-- Claim C7, counterexample: a balanced dataset of 200 records — far below
a few thousand — passes both stratified splits, the estimator fit and the
calibration, producing a bundle with no fallback marker and only the six
standard metric keys: nothing rejects it and nothing flags unreliable
calibration. -/
theorem small_dataset_trains_unflagged :
    train 100 100 false = .ok ⟨false, storedMetricKeys⟩ ∧
    (200 : ℕ) < 2000 ∧
    storedMetricKeys = ["auc", "brier_score", "precision", "recall", "f1_score", "accuracy"] :=
  ⟨rfl, by norm_num, rfl⟩

/-- Claim C7 (amended): training fails outright exactly where the libraries
raise — a present label class with fewer than two members fails the
stratified split, single-class labels fail the estimator fit — but no
minimum-total-size gate exists: a sub-few-thousand balanced dataset trains
successfully, with or without calibration fallback, and no flag of
unreliable calibration is recorded in the metric keys. -/
theorem train_failure_characterization :
    (∀ n : ℕ, train 1 n false = .error .stratSplit) ∧
    train 0 10 false = .error .estimatorFit ∧
    train 100 100 false = .ok ⟨false, storedMetricKeys⟩ ∧
    train 100 100 true = .ok ⟨true, storedMetricKeys⟩ := by
  refine ⟨?_, rfl, rfl, rfl⟩
  intro n
  simp [train, stratOk]

theorem topK_spec {α : Type} (key : α → ℚ) (l : List α) (k : ℕ) :
    (∃ rest, l.Perm ((sortDesc key l).take k ++ rest) ∧
        ∀ x ∈ (sortDesc key l).take k, ∀ y ∈ rest, key y ≤ key x) ∧
    ((sortDesc key l).take k).Pairwise (fun a b => key b ≤ key a) ∧
    (∀ x ∈ (sortDesc key l).take k, x ∈ l) ∧
    ((sortDesc key l).take k).length = min k l.length := by
  obtain ⟨hperm, hdom⟩ := sortDesc_take_split key l k
  refine ⟨⟨(sortDesc key l).drop k, hperm, hdom⟩, ?_, ?_, ?_⟩
  · exact List.Pairwise.sublist (List.take_sublist k _) (sortDesc_sorted key l)
  · intro x hx
    exact (sortDesc_perm key l).mem_iff.mp (List.mem_of_mem_take hx)
  · rw [List.length_take, (sortDesc_perm key l).length_eq]

/-- Claim C9: the reported risk drivers are the first three of the stable
descending sort of the strictly positive per-feature contributions — every
positive contribution left out is dominated by each one reported, the list
is descending, carries signed values drawn from the contribution list, and
its length is three unless fewer contributions are positive; contributions
with equal value keep their input order (stable sort); the protective
factors mirror this on the strictly negative contributions ranked and
reported by unsigned absolute magnitude. -/
theorem drivers_protective_top3 (impacts : List (String × ℚ)) :
    (∃ rest, (impacts.filter (fun fc => decide (0 < fc.2))).Perm
        (riskDrivers impacts ++ rest) ∧
        ∀ x ∈ riskDrivers impacts, ∀ y ∈ rest, y.2 ≤ x.2) ∧
    (riskDrivers impacts).Pairwise (fun a b => b.2 ≤ a.2) ∧
    (∀ x ∈ riskDrivers impacts, 0 < x.2 ∧ x ∈ impacts) ∧
    (riskDrivers impacts).length =
      min 3 (impacts.filter (fun fc => decide (0 < fc.2))).length ∧
    (∀ c : ℚ, (sortDesc (fun fc => fc.2) (impacts.filter (fun fc => decide (0 < fc.2)))).filter
        (fun fc => decide (fc.2 = c)) =
      (impacts.filter (fun fc => decide (0 < fc.2))).filter (fun fc => decide (fc.2 = c))) ∧
    (∃ rest, ((impacts.filter (fun fc => decide (fc.2 < 0))).map
        (fun fc => (fc.1, |fc.2|))).Perm (protectiveFactors impacts ++ rest) ∧
        ∀ x ∈ protectiveFactors impacts, ∀ y ∈ rest, y.2 ≤ x.2) ∧
    (protectiveFactors impacts).Pairwise (fun a b => b.2 ≤ a.2) ∧
    (∀ x ∈ protectiveFactors impacts, ∃ y, y ∈ impacts ∧ y.2 < 0 ∧ x = (y.1, |y.2|)) ∧
    (protectiveFactors impacts).length =
      min 3 (impacts.filter (fun fc => decide (fc.2 < 0))).length ∧
    (∀ c : ℚ, (sortDesc (fun fc => fc.2) ((impacts.filter (fun fc => decide (fc.2 < 0))).map
        (fun fc => (fc.1, |fc.2|)))).filter (fun fc => decide (fc.2 = c)) =
      ((impacts.filter (fun fc => decide (fc.2 < 0))).map
        (fun fc => (fc.1, |fc.2|))).filter (fun fc => decide (fc.2 = c))) := by
  obtain ⟨hex, hsort, hmem, hlen⟩ :=
    topK_spec (fun fc : String × ℚ => fc.2) (impacts.filter (fun fc => decide (0 < fc.2))) 3
  have h2 :=
    topK_spec (fun fc : String × ℚ => fc.2)
      ((impacts.filter (fun fc => decide (fc.2 < 0))).map (fun fc => (fc.1, |fc.2|))) 3
  have hex2 := h2.1
  have hsort2 := h2.2.1
  have hmem2 := h2.2.2.1
  refine ⟨hex, hsort, ?_, ?_, ?_, hex2, hsort2, ?_, ?_, ?_⟩
  · intro x hx
    have hx2 := List.mem_filter.mp (hmem x hx)
    exact ⟨of_decide_eq_true hx2.2, hx2.1⟩
  · rw [riskDrivers]
    rw [List.length_take, ((sortDesc_perm (fun fc : String × ℚ => fc.2) _)).length_eq]
  · intro c
    exact sortDesc_filter_key (fun fc : String × ℚ => fc.2) c _
  · intro x hx
    obtain ⟨y, hy, hxy⟩ := List.mem_map.mp (hmem2 x hx)
    have hy2 := List.mem_filter.mp hy
    exact ⟨y, hy2.1, of_decide_eq_true hy2.2, hxy.symm⟩
  · rw [protectiveFactors]
    rw [List.length_take, ((sortDesc_perm (fun fc : String × ℚ => fc.2) _)).length_eq,
      List.length_map]
  · intro c
    exact sortDesc_filter_key (fun fc : String × ℚ => fc.2) c _

/-- A fully populated farm record used as the base point of the concrete
evaluations below. -/
def sampleRecord : FarmRecord :=
  { state := "Punjab"
    crop_type := "wheat"
    irrigation_type := "canal"
    season := "kharif"
    year := 2023
    land_acres := 3
    actual_rainfall_mm := 800
    rainfall_deficit_pct := 1/10
    heatwave_days := 5
    monsoon_reliability := 7/10
    ndvi_score := some (3/5)
    soil_moisture_percent := some 40
    soil_fertility_index := 1/2
    water_source_count := 2
    borewell_count := 1
    borewell_depth_ft := 100
    crop_count := 2
    livestock_count := 3
    kcc_score := 700
    kcc_repayment_rate := 80
    outstanding_debt_ratio := 1/2
    owns_tractor := false
    has_storage := false
    has_livestock := true
    has_canal_access := true
    has_insurance_history := false }

/-- A serving-time record in the same state whose satellite ndvi reading is
missing (cloud cover). -/
def servingRecord : FarmRecord := { sampleRecord with ndvi_score := none }

/-- A training batch in the state "Punjab" with observed ndvi readings 0.5,
0.6 and 0.7, whose training-time state-level median is therefore 0.6. -/
def trainBatch : List FarmRecord :=
  [{ sampleRecord with ndvi_score := some (1/2) },
   { sampleRecord with ndvi_score := some (3/5) },
   { sampleRecord with ndvi_score := some (7/10) }]

/-- Claim C1 is violated by the code: `prepare_features` stores no
imputation statistic at training time and recomputes the state-group median
from whatever batch it is given.  The training batch in state "Punjab" has
state median 0.6, but at serving time the one-row batch contains no
observed ndvi value for the state, so `x.fillna(x.median())` fills with NaN
and the value stays missing — it does not equal the training-time state
median 0.6, nor any stored statistic.  No error is raised (the row is
produced; CatBoost accepts NaN), so the defect is silent. -/
theorem serving_imputation_not_training_median :
    stateGroupMedian (fun r => r.ndvi_score) trainBatch "Punjab" = some (3/5) ∧
    (prepareFeatures (fun q => q) [servingRecord]).map (fun row => row.ndvi_score) = [none] ∧
    (none : Option ℚ) ≠ some (3/5) := by
  refine ⟨?_, ?_, by simp⟩
  · show median _ = some (3/5)
    norm_num [stateGroupMedian, stateGroup, trainBatch, sampleRecord, median, sortDesc,
      insertDesc, List.filter, List.filterMap]
  · norm_num [prepareFeatures, prepareRow, servingRecord, sampleRecord, fillna,
      stateGroupMedian, stateGroup, median, sortDesc, insertDesc, List.filter,
      List.filterMap]

/-- The same farm as `sampleRecord` but with half the rainfall, used to show
batch-dependent deviations. -/
def rainyNeighbour : FarmRecord := { sampleRecord with actual_rainfall_mm := 400 }

/-- Claim C8: in a single-record scoring call the state rainfall mean is
computed over the one-row batch being transformed, so it degenerates to the
record's own rainfall and the deviation feature is exactly zero whenever
actual rainfall is positive; the very same record inside a two-record batch
gets a nonzero deviation. -/
theorem single_record_deviation_zero :
    (∀ (log1p : ℚ → ℚ) (r : FarmRecord), 0 < r.actual_rainfall_mm →
      (prepareRow log1p [r] r).rainfall_deviation_from_state = 0) ∧
    (prepareRow (fun q => q) [sampleRecord, rainyNeighbour]
        sampleRecord).rainfall_deviation_from_state ≠ 0 := by
  constructor
  · intro log1p r _
    have hmean : stateRainfallMean [r] r.state = r.actual_rainfall_mm := by
      simp [stateRainfallMean, stateGroup, List.filter]
    simp [prepareRow, hmean]
  · norm_num [prepareRow, stateRainfallMean, stateGroup, sampleRecord, rainyNeighbour,
      List.filter]

/-- Witness for the single-record half of claim C8, at the concrete sample
record whose actual rainfall 800 is positive. -/
theorem single_record_deviation_zero_witness :
    (prepareRow (fun q => q) [sampleRecord] sampleRecord).rainfall_deviation_from_state = 0 :=
  single_record_deviation_zero.1 (fun q => q) sampleRecord (by norm_num [sampleRecord])

/-- Claim C10: the feature transform is a pure function of the record batch
and the fixed numeric primitives (`np.log1p` abstracted as `log1p`): two
runs on identical input yield identical feature rows.  The embedding is
total and reads no state, randomness or clock, because `prepare_features`
reads none. -/
theorem transform_deterministic (log1p : ℚ → ℚ) (b1 b2 : List FarmRecord)
    (h : b1 = b2) : prepareFeatures log1p b1 = prepareFeatures log1p b2 := by
  rw [h]

/-- Witness for claim C10 at a concrete one-record batch. -/
theorem transform_deterministic_witness :
    prepareFeatures (fun q => q) [sampleRecord] = prepareFeatures (fun q => q) [sampleRecord] :=
  transform_deterministic (fun q => q) [sampleRecord] [sampleRecord] rfl

end AgriRisk
